import Mathlib

/-!
Verification of the bookstore-insights dashboard's data-handling logic.

The application (src/app.py) loads a CSV into a table and serves seven
views over it.  This file gives a shallow embedding of the data model
(rows of named scalar cells), of the query operations the views perform
(Spark-SQL `like` filtering, group-by/count with limit, null-ignoring
average, distinct count), and of the view handlers themselves (Dashboard,
Search, Upload, Feedback), and proves or refutes the specified properties
of each.  Where the engine leaves an order unspecified (group enumeration,
ties in a top-k), only order-invariant properties are claimed.
-/

namespace BookstoreInsights

/-- Scalar cell value of a table: a string, a (rational-modelled) number,
or SQL null.  Missing data in the loaded table is represented by `null`. -/
inductive Value where
  | str : String → Value
  | num : Rat → Value
  | null : Value
deriving DecidableEq, Repr

/-- A row is an ordered association of column names to cell values. -/
abbrev Row := List (String × Value)

/-- The in-memory table: a schema (ordered column names) and a list of rows. -/
structure Dataset where
  schema : List String
  rows : List Row
deriving DecidableEq, Repr

/-- Cell access.  A column missing from a row reads as SQL null,
modelling missing data in a row of the schema; the analysis error the
engine raises for a column outside the schema is modelled at the
operation level (see `average` and `distinctCount`), and theorems that
depend on that distinction carry schema-membership hypotheses. -/
def getCol (r : Row) (c : String) : Value :=
  (r.lookup c).getD Value.null

/-- Numeric view of a cell: `some` for a number, `none` for null or non-numeric. -/
def numVal : Value → Option Rat
  | .num q => some q
  | _ => none

/-- String form of a cell as used by string predicates such as `like`:
strings are themselves, numbers are cast to their decimal form, and null
has no string form (string predicates on null yield null, i.e. no match). -/
def strForm : Value → Option String
  | .str s => some s
  | .num q => some (toString q)
  | .null => none

/-- Embedding of the SQL `LIKE` pattern match used by the Search view
(src/app.py line 96, `col.like`): in the pattern, the character percent
matches any sequence of characters, underscore matches exactly one
character, a backslash escapes the following pattern character, and every
other character matches itself literally.  (Spark rejects an escape
preceding an ordinary character; that dead case is modelled as a literal
match of the escaped character and no theorem below depends on it.) -/
def likeMatch : List Char → List Char → Bool
  | [], s => s.isEmpty
  | '%' :: p, s => s.tails.any (fun t => likeMatch p t)
  | '_' :: p, s =>
    match s with
    | [] => false
    | _ :: s' => likeMatch p s'
  | '\\' :: c :: p, s =>
    match s with
    | [] => false
    | d :: s' => decide (d = c) && likeMatch p s'
  | c :: p, s =>
    match s with
    | [] => false
    | d :: s' => decide (d = c) && likeMatch p s'

/-- The pattern the Search view builds around the user's term
(src/app.py line 96: percent, then the term, then percent). -/
def colPattern (s : String) : List Char :=
  '%' :: (s.data ++ ['%'])

/-- Whether one cell satisfies the Search view's `like` condition for term `s`.
A null cell never matches (SQL null propagates to a non-match). -/
def valueMatches (s : String) (v : Value) : Bool :=
  match strForm v with
  | some t => likeMatch (colPattern s) t.data
  | none => false

/-- The Search view's filter (src/app.py lines 95-98): keep the rows in
which at least one of the given columns satisfies the `like` condition. -/
def filterContains (d : Dataset) (cols : List String) (s : String) : List Row :=
  d.rows.filter (fun r => cols.any (fun c => valueMatches s (getCol r c)))

/-- Literal-substring match of the search term in one cell, as the spec
describes the Search filter: the term occurs character-for-character as a
contiguous substring of the cell's string form. -/
def literalSubstrMatch (s : String) (v : Value) : Bool :=
  match strForm v with
  | some t => decide (s.data <:+: t.data)
  | none => false

/-- The Search filter as the spec's words describe it (literal substring
occurrence, no pattern metacharacters), for comparison with `filterContains`. -/
def filterContainsLiteral (d : Dataset) (cols : List String) (s : String) : List Row :=
  d.rows.filter (fun r => cols.any (fun c => literalSubstrMatch s (getCol r c)))

/-- A character of a search term that `LIKE` does not treat literally. -/
def likeSpecial (c : Char) : Prop :=
  c = '%' ∨ c = '_' ∨ c = '\\'

instance (c : Char) : Decidable (likeSpecial c) := by
  unfold likeSpecial
  infer_instance

theorem likeMatch_nil (s : List Char) : likeMatch [] s = s.isEmpty := by
  rw [likeMatch]

theorem likeMatch_pct (p : List Char) (s : List Char) :
    likeMatch ('%' :: p) s = s.tails.any (fun t => likeMatch p t) := by
  rw [likeMatch]

/-- A single percent pattern matches every string. -/
theorem likeMatch_pct_nil (s : List Char) : likeMatch ['%'] s = true := by
  rw [likeMatch_pct]
  rw [List.any_eq_true]
  refine ⟨[], ?_, ?_⟩
  · rw [List.mem_tails]
    exact List.nil_suffix
  · rw [likeMatch_nil]
    rfl

/-- Percent-headed patterns match exactly the strings with a suffix
matching the rest of the pattern. -/
theorem likeMatch_pct_iff (p : List Char) (s : List Char) :
    likeMatch ('%' :: p) s = true ↔ ∃ t, t <:+ s ∧ likeMatch p t = true := by
  rw [likeMatch_pct, List.any_eq_true]
  constructor
  · rintro ⟨t, ht, hm⟩
    exact ⟨t, (List.mem_tails t s).1 ht, hm⟩
  · rintro ⟨t, ht, hm⟩
    exact ⟨t, (List.mem_tails t s).2 ht, hm⟩

theorem likeMatch_lit_cons (c : Char) (hc : ¬ likeSpecial c) (p : List Char)
    (s : List Char) :
    likeMatch (c :: p) s =
      match s with
      | [] => false
      | d :: s' => decide (d = c) && likeMatch p s' := by
  have h1 : c ≠ '%' := fun h => hc (Or.inl h)
  have h2 : c ≠ '_' := fun h => hc (Or.inr (Or.inl h))
  have h3 : c ≠ '\\' := fun h => hc (Or.inr (Or.inr h))
  rw [likeMatch.eq_def]
  split
  · rename_i heq
    exact absurd heq (List.cons_ne_nil c p)
  · rename_i heq
    injection heq with e1 _
    exact absurd e1 h1
  · rename_i heq
    injection heq with e1 _
    exact absurd e1 h2
  · rename_i heq
    injection heq with e1 _
    exact absurd e1 h3
  · rename_i heq
    injection heq with e1 e2
    rw [← e1, ← e2]

/-- A metacharacter-free pattern followed by a trailing percent matches
exactly the strings that begin with the pattern read literally. -/
theorem likeMatch_lit_pct (s : List Char) (hs : ∀ c ∈ s, ¬ likeSpecial c)
    (t : List Char) : likeMatch (s ++ ['%']) t = true ↔ s <+: t := by
  induction s generalizing t with
  | nil =>
    simp only [List.nil_append]
    rw [likeMatch_pct_nil]
    simp [List.nil_prefix]
  | cons c s ih =>
    have hc : ¬ likeSpecial c := hs c (List.mem_cons_self c s)
    have hs' : ∀ x ∈ s, ¬ likeSpecial x := fun x hx => hs x (List.mem_cons_of_mem c hx)
    rw [List.cons_append, likeMatch_lit_cons c hc]
    cases t with
    | nil =>
      simp
    | cons d t' =>
      simp only [Bool.and_eq_true, decide_eq_true_eq]
      rw [ih hs' t', List.cons_prefix_cons]
      constructor
      · rintro ⟨h1, h2⟩
        exact ⟨h1.symm, h2⟩
      · rintro ⟨h1, h2⟩
        exact ⟨h1.symm, h2⟩

/-- Correctness of the Search pattern for metacharacter-free terms: the
`LIKE` pattern percent-term-percent accepts exactly the strings containing
the term as a contiguous literal substring. -/
theorem likeMatch_colPattern_iff (s : String) (hs : ∀ c ∈ s.data, ¬ likeSpecial c)
    (t : List Char) : likeMatch (colPattern s) t = true ↔ s.data <:+: t := by
  rw [colPattern, likeMatch_pct_iff]
  constructor
  · rintro ⟨u, hu, hm⟩
    rw [likeMatch_lit_pct s.data hs u] at hm
    exact List.infix_iff_prefix_suffix.2 ⟨u, hm, hu⟩
  · intro h
    obtain ⟨u, hpre, hsuf⟩ := List.infix_iff_prefix_suffix.1 h
    refine ⟨u, hsuf, ?_⟩
    rw [likeMatch_lit_pct s.data hs u]
    exact hpre

/-- Pointwise agreement of the `like`-based match with the literal
substring match, for metacharacter-free search terms. -/
theorem valueMatches_eq_literal (s : String) (h : ∀ c ∈ s.data, ¬ likeSpecial c)
    (v : Value) : valueMatches s v = literalSubstrMatch s v := by
  unfold valueMatches literalSubstrMatch
  cases hf : strForm v with
  | none => rfl
  | some t =>
    show likeMatch (colPattern s) t.data = decide (s.data <:+: t.data)
    have hiff := likeMatch_colPattern_iff s h t.data
    rcases Bool.eq_false_or_eq_true (likeMatch (colPattern s) t.data) with hb | hb
    · rw [hb]
      symm
      rw [decide_eq_true_eq]
      exact hiff.1 hb
    · rw [hb]
      symm
      rw [decide_eq_false_iff_not]
      intro hin
      rw [← hiff, hb] at hin
      exact Bool.false_ne_true hin

/-- A one-row table used to exhibit the wildcard behaviour of the Search filter. -/
def dsWildcard : Dataset :=
  ⟨["title", "authors"], [[("title", Value.str "a"), ("authors", Value.str "b")]]⟩

/-- A small table on which the Search filter behaves literally. -/
def dsBooks : Dataset :=
  ⟨["title", "authors"],
   [[("title", Value.str "Harry Potter"), ("authors", Value.str "Rowling")],
    [("title", Value.str "Dune"), ("authors", Value.str "Herbert")],
    [("title", Value.str "Carrie"), ("authors", Value.str "King")]]⟩

/-- C1, counterexample: the search term consisting of the single character
underscore is not a substring of the title "a" nor of the authors "b", yet
the Search filter keeps the row, because underscore is a `LIKE` wildcard
matching any one character.  So the filter does not match every character
of the term literally. -/
theorem search_like_metachar_counterexample :
    filterContains dsWildcard ["title", "authors"] "_" ≠
      filterContainsLiteral dsWildcard ["title", "authors"] "_" := by
  decide

/-- C1, amended: for search terms containing none of the `LIKE`
metacharacters (percent, underscore, backslash), the Search filter returns
exactly the rows in which the term occurs character-for-character as a
contiguous case-sensitive substring of the title or authors string value. -/
theorem search_filter_literal_of_no_metachar (d : Dataset) (s : String)
    (h : ∀ c ∈ s.data, ¬ likeSpecial c) :
    filterContains d ["title", "authors"] s =
      filterContainsLiteral d ["title", "authors"] s := by
  unfold filterContains filterContainsLiteral
  apply List.filter_congr
  intro r _
  simp only [valueMatches_eq_literal s h]

/-- C1, witness: the metacharacter-free term "arr" filters the sample
table literally. -/
theorem search_filter_literal_witness :
    (∀ c ∈ "arr".data, ¬ likeSpecial c) ∧
      filterContains dsBooks ["title", "authors"] "arr" =
        filterContainsLiteral dsBooks ["title", "authors"] "arr" :=
  ⟨by decide, search_filter_literal_of_no_metachar dsBooks "arr" (by decide)⟩

/-- A one-row table whose two columns are both present in the schema and
both null in the row. -/
def dsNullRow : Dataset :=
  ⟨["x", "y"], [[("x", Value.null), ("y", Value.null)]]⟩

/-- C5, counterexample: with the empty search term the filter condition is
the pattern percent-percent, which any string satisfies, but a null cell
yields SQL null and the row is dropped; on a table whose two searched
columns are both in the schema, a row that is null in both of them is not
returned, so the empty term is not an identity. -/
theorem filter_empty_term_counterexample :
    filterContains dsNullRow ["x", "y"] "" ≠ dsNullRow.rows := by
  decide

/-- C5, amended: for two columns of the schema, the empty search term
keeps, in order, exactly the rows having a non-null value in at least one
of the two columns (on tables with no nulls in those columns this is all
rows).  The schema hypotheses scope the claim to the inputs on which the
program's filter runs at all — referencing a column outside the schema
raises an unresolved-column analysis error instead. -/
theorem filter_empty_term_keeps_nonnull (d : Dataset) (c1 c2 : String)
    (h1 : c1 ∈ d.schema) (h2 : c2 ∈ d.schema) :
    filterContains d [c1, c2] "" =
      d.rows.filter
        (fun r => (strForm (getCol r c1)).isSome || (strForm (getCol r c2)).isSome) := by
  unfold filterContains
  apply List.filter_congr
  intro r _
  have hv : ∀ v : Value, valueMatches "" v = (strForm v).isSome := by
    intro v
    unfold valueMatches
    cases hf : strForm v with
    | none => rfl
    | some t =>
      show likeMatch ['%', '%'] t.data = true
      rw [likeMatch_pct_iff]
      exact ⟨t.data, List.suffix_refl t.data, likeMatch_pct_nil t.data⟩
  simp [hv]

/-- C5, witness: the empty-term filtering on the concrete table whose two
schema columns are null drops its row. -/
theorem filter_empty_term_witness :
    ("x" ∈ dsNullRow.schema) ∧ ("y" ∈ dsNullRow.schema) ∧
      filterContains dsNullRow ["x", "y"] "" =
        dsNullRow.rows.filter
          (fun r => (strForm (getCol r "x")).isSome || (strForm (getCol r "y")).isSome) :=
  ⟨by decide, by decide,
   filter_empty_term_keeps_nonnull dsNullRow "x" "y" (by decide) (by decide)⟩

/-- One row's contribution to the running per-group counts: increment the
count of the row's group value, appending a new group on first encounter. -/
def bump : List (Value × Nat) → Value → List (Value × Nat)
  | [], v => [(v, 1)]
  | (w, n) :: rest, v =>
    if w = v then (w, n + 1) :: rest else (w, n) :: bump rest v

/-- Per-group counts of the Insights view's `groupBy(col).agg(count("*"))`
(src/app.py line 126): every row is counted in the group of its column
value, null included.  The engine's hash aggregation emits groups in no
specified order; this model enumerates them in first-encounter order as
one admissible enumeration, and only properties invariant under that
enumeration order are claimed of the program. -/
def groupCounts (d : Dataset) (c : String) : List (Value × Nat) :=
  d.rows.foldl (fun acc r => bump acc (getCol r c)) []

/-- Comparator of the Insights view's `orderBy(desc("book_count"))`:
descending by group count. -/
def countOrder (a b : Value × Nat) : Bool :=
  decide (b.2 ≤ a.2)

/-- The Insights view's top-authors query (src/app.py line 126): group
counts sorted descending by count, truncated to `k`.  The engine's top-k
gives no guarantee on the order among equal counts; the model's sort is
one admissible outcome, and only tie-order-invariant properties are
claimed of the program. -/
def groupCountTop (d : Dataset) (c : String) (k : Nat) : List (Value × Nat) :=
  ((groupCounts d c).mergeSort countOrder).take k

theorem bump_sum (acc : List (Value × Nat)) (v : Value) :
    ((bump acc v).map Prod.snd).sum = ((acc.map Prod.snd).sum) + 1 := by
  induction acc with
  | nil => rfl
  | cons g rest ih =>
    obtain ⟨w, n⟩ := g
    unfold bump
    by_cases h : w = v
    · simp only [h, if_true, List.map_cons, List.sum_cons]
      omega
    · simp only [h, if_false, List.map_cons, List.sum_cons, ih]
      omega

theorem foldl_bump_sum (c : String) (rows : List Row) (acc : List (Value × Nat)) :
    (((rows.foldl (fun a r => bump a (getCol r c)) acc).map Prod.snd).sum) =
      ((acc.map Prod.snd).sum) + rows.length := by
  induction rows generalizing acc with
  | nil => rfl
  | cons r rs ih =>
    simp only [List.foldl_cons, List.length_cons, ih, bump_sum]
    omega

theorem countOrder_trans (a b e : Value × Nat) :
    countOrder a b → countOrder b e → countOrder a e := by
  unfold countOrder
  simp only [decide_eq_true_eq]
  omega

theorem countOrder_total (a b : Value × Nat) : countOrder a b || countOrder b a := by
  unfold countOrder
  simp only [Bool.or_eq_true, decide_eq_true_eq]
  omega

/-- A one-row table whose grouping column is null. -/
def dsNullAuthor : Dataset := ⟨["authors"], [[("authors", Value.null)]]⟩

/-- C3, counterexample: on a table whose single row has a null grouping
value, the group counts sum to 1 (the null group counts its row, because
`count("*")` counts rows, not non-null values), while the number of rows
with a non-null grouping value is 0. -/
theorem groupCount_sum_counterexample :
    ¬ ((groupCounts dsNullAuthor "authors").map Prod.snd).sum =
        (dsNullAuthor.rows.filter
          (fun r => !decide (getCol r "authors" = Value.null))).length := by
  decide

/-- C3, amended: the per-group counts sum, over all groups (not only the
returned top k), to the total number of rows of D — rows with a null
grouping value are counted too, in a group keyed by null — and the
returned top-k counts are non-increasing.  The enumeration order among
groups, and the order among groups of equal count, are left unspecified
by the engine (hash aggregation followed by a top-k with no tie-order
guarantee), so no ordering property is claimed; the two properties proved
here are invariant under the enumeration order the model picks. -/
theorem groupCountTop_spec (d : Dataset) (c : String) (k : Nat) :
    ((groupCounts d c).map Prod.snd).sum = d.rows.length ∧
    (groupCountTop d c k).Pairwise (fun a b => b.2 ≤ a.2) := by
  refine ⟨?_, ?_⟩
  · unfold groupCounts
    rw [foldl_bump_sum]
    simp
  · have hs : ((groupCounts d c).mergeSort countOrder).Pairwise
        (fun a b => countOrder a b = true) :=
      List.sorted_mergeSort countOrder_trans countOrder_total (groupCounts d c)
    unfold groupCountTop
    apply List.Pairwise.sublist (List.take_sublist k _)
    apply hs.imp
    intro a b hab
    unfold countOrder at hab
    exact of_decide_eq_true hab

/-- Aggregation step of the engine's `avg`: fold a running (sum, count)
pair over the rows, ignoring null and non-numeric cells. -/
def avgStep (c : String) (p : Rat × Nat) (r : Row) : Rat × Nat :=
  match numVal (getCol r c) with
  | some q => (p.1 + q, p.2 + 1)
  | none => p

/-- The Dashboard's average metric (src/app.py line 75,
`df.select(avg(col("average_rating")))`): referencing a column absent from
the schema fails analysis (ColumnNotFound); otherwise null entries are
ignored in both the sum and the divisor, and a column with no non-null
value averages to null (`none`). -/
def average (d : Dataset) (c : String) : Except String (Option Rat) :=
  if c ∈ d.schema then
    let p := d.rows.foldl (avgStep c) (0, 0)
    .ok (if p.2 = 0 then none else some (p.1 / (p.2 : Rat)))
  else .error "ColumnNotFound"

/-- The non-null numeric entries of a column, in row order. -/
def nonNullNums (d : Dataset) (c : String) : List Rat :=
  d.rows.filterMap (fun r => numVal (getCol r c))

theorem foldl_avgStep (c : String) (rows : List Row) (s : Rat) (n : Nat) :
    rows.foldl (avgStep c) (s, n) =
      (s + (rows.filterMap (fun r => numVal (getCol r c))).sum,
       n + (rows.filterMap (fun r => numVal (getCol r c))).length) := by
  induction rows generalizing s n with
  | nil => simp
  | cons r rs ih =>
    simp only [List.foldl_cons]
    cases hq : numVal (getCol r c) with
    | none =>
      have ha : avgStep c (s, n) r = (s, n) := by
        unfold avgStep
        rw [hq]
      rw [ha, ih, List.filterMap_cons, hq]
    | some q =>
      have ha : avgStep c (s, n) r = (s + q, n + 1) := by
        unfold avgStep
        rw [hq]
      rw [ha, ih, List.filterMap_cons, hq]
      simp only [List.sum_cons, List.length_cons, Prod.mk.injEq]
      exact ⟨by ring, by omega⟩

/-- Helper: on a column present in the schema with at least one non-null
value, the aggregated average is the sum of the non-null values over
their number. -/
theorem average_eq_mean (d : Dataset) (c : String) (hmem : c ∈ d.schema)
    (hne : nonNullNums d c ≠ []) :
    average d c =
      .ok (some ((nonNullNums d c).sum / ((nonNullNums d c).length : Rat))) := by
  unfold average
  rw [if_pos hmem, foldl_avgStep]
  unfold nonNullNums at hne
  have hlen : ¬ ((List.filterMap (fun r => numVal (getCol r c)) d.rows).length = 0) :=
    fun h0 => hne (List.length_eq_zero.1 h0)
  simp only [zero_add, Nat.zero_add]
  rw [if_neg hlen]
  unfold nonNullNums
  rfl

/-- C4: on a column present in the schema with at least one non-null
value, the average equals the arithmetic mean of the non-null values
(nulls ignored in both the sum and the divisor); on a column absent from
the schema it fails with ColumnNotFound. -/
theorem average_spec (d : Dataset) (c : String) :
    (c ∈ d.schema → nonNullNums d c ≠ [] →
      average d c =
        .ok (some ((nonNullNums d c).sum / ((nonNullNums d c).length : Rat)))) ∧
    (c ∉ d.schema → average d c = .error "ColumnNotFound") := by
  constructor
  · exact average_eq_mean d c
  · intro hmem
    unfold average
    rw [if_neg hmem]

/-- A three-row table with ratings 2, 3 and null in column r. -/
def dsAvg : Dataset :=
  ⟨["r"], [[("r", Value.num 2)], [("r", Value.num 3)], [("r", Value.null)]]⟩

/-- C4, witness: the average of the column with non-null values 2 and 3
is 5/2, the null row being ignored in both sum and divisor. -/
theorem average_spec_witness :
    ("r" ∈ dsAvg.schema) ∧ nonNullNums dsAvg "r" ≠ [] ∧
      average dsAvg "r" = .ok (some (5 / 2)) := by
  refine ⟨by decide, by decide, ?_⟩
  have h := (average_spec dsAvg "r").1 (by decide) (by decide)
  rw [h]
  have hl : nonNullNums dsAvg "r" = [2, 3] := by decide
  rw [hl]
  norm_num

/-- One element of the display payload handed to the rendering layer:
a table of rows, or a labelled metric with its rendered value. -/
inductive Item where
  | table : List Row → Item
  | metric : String → String → Item
deriving DecidableEq, Repr

/-- How the Dashboard view aborts: an analysis error on a column absent
from the schema, or the TypeError raised by applying the two-decimal
numeric format to a null average (src/app.py line 83). -/
inductive DashErr where
  | columnNotFound : String → DashErr
  | formatTypeError : DashErr
deriving DecidableEq, Repr

/-- The first n rows in original order (`head(10)` / `limit(10)`). -/
def preview (d : Dataset) (n : Nat) : List Row :=
  d.rows.take n

/-- Distinct count of the Dashboard (src/app.py line 77,
`df.select("authors").distinct().count()`): the number of distinct values
of the column (null counted as a value when present); selecting an absent
column fails analysis. -/
def distinctCount (d : Dataset) (c : String) : Except String Nat :=
  if c ∈ d.schema then
    .ok ((d.rows.map (fun r => getCol r c)).dedup.length)
  else .error "ColumnNotFound"

/-- Count of the non-null values of a column, the `count(col)` semantics
of the Bestsellers metric (src/app.py line 80). -/
def nonNullCount (d : Dataset) (c : String) : Nat :=
  (d.rows.filter (fun r => !decide (getCol r c = Value.null))).length

/-- Two-decimal rendering of the average metric (the format string at
src/app.py line 83), computed on the exact rational as rounding to the
nearest cent: the exact digit behaviour of binary-float formatting is not
modelled and no claim below depends on the rounded digits. -/
def twoDecString (q : Rat) : String :=
  let cents : Int := Int.fdiv (q.num * 200 + (q.den : Int)) (2 * (q.den : Int))
  let sgn := if cents < 0 then "-" else ""
  let m := cents.natAbs
  sgn ++ toString (m / 100) ++ "." ++
    (if m % 100 < 10 then "0" else "") ++ toString (m % 100)

/-- The Dashboard view (src/app.py lines 68-85), as the sequence of
display items it emits and the error, if any, that aborts it.  The code
renders the preview first (line 72), then computes the average (line 75,
aborting on a missing average_rating column), the row count (line 76) and
the distinct-author count (line 77, aborting on a missing authors column;
the computed value is never rendered), then the Bestsellers count with the
N/A fallback (lines 79-80), and finally renders the three metrics (lines
83-85), aborting at line 83 if the computed average is null. -/
def dashboardView (d : Dataset) : List Item × Option DashErr :=
  let pv := Item.table (preview d 10)
  match average d "average_rating" with
  | .error _ => ([pv], some (DashErr.columnNotFound "average_rating"))
  | .ok avgOpt =>
    match distinctCount d "authors" with
    | .error _ => ([pv], some (DashErr.columnNotFound "authors"))
    | .ok _ =>
      let bestseller :=
        if "ratings_count" ∈ d.schema then toString (nonNullCount d "ratings_count")
        else "N/A"
      match avgOpt with
      | none => ([pv], some DashErr.formatTypeError)
      | some q =>
        ([pv,
          Item.metric "⭐ Average Rating" (twoDecString q),
          Item.metric "📚 Total Books" (toString d.rows.length),
          Item.metric "🏆 Bestsellers" bestseller], none)

/-- The Dashboard payload as the spec's sentence lists it: five
components, including a metric carrying the distinct-author count.
Follows the spec's words, for comparison with `dashboardView`. -/
def claimedDashboardItems (d : Dataset) : List Item :=
  [Item.table (preview d 10),
   Item.metric "⭐ Average Rating"
     (match average d "average_rating" with
      | .ok (some q) => twoDecString q
      | _ => ""),
   Item.metric "📚 Total Books" (toString d.rows.length),
   Item.metric "👥 Total Authors"
     (match distinctCount d "authors" with
      | .ok n => toString n
      | _ => ""),
   Item.metric "🏆 Bestsellers"
     (if "ratings_count" ∈ d.schema then toString (nonNullCount d "ratings_count")
      else "N/A")]

/-- A one-row table lacking the average_rating column. -/
def dsNoAvg : Dataset := ⟨["title"], [[("title", Value.str "t")]]⟩

/-- C6, counterexample: on a table lacking average_rating, the Dashboard
aborts at the average computation: its payload is only the preview table
and the error — the count and distinct-count metrics claimed to still be
rendered are not produced (there is no per-metric error isolation). -/
theorem dashboard_no_isolation_counterexample :
    dashboardView dsNoAvg =
      ([Item.table dsNoAvg.rows], some (DashErr.columnNotFound "average_rating")) ∧
      (dashboardView dsNoAvg).1.length = 1 := by
  constructor
  · rfl
  · rfl

/-- C6, amended: on a table lacking average_rating the Dashboard surfaces
ColumnNotFound for the average metric, but the failure aborts the view:
only the preview, rendered before the failing computation, is produced;
the count and distinct-count metrics are not. -/
theorem dashboard_missing_avg_aborts (d : Dataset)
    (h : "average_rating" ∉ d.schema) :
    dashboardView d =
      ([Item.table (preview d 10)], some (DashErr.columnNotFound "average_rating")) := by
  unfold dashboardView
  have ha : average d "average_rating" = .error "ColumnNotFound" := by
    unfold average
    rw [if_neg h]
  rw [ha]

/-- C6, witness: the amended behaviour on the concrete one-row table. -/
theorem dashboard_missing_avg_witness :
    ("average_rating" ∉ dsNoAvg.schema) ∧
      dashboardView dsNoAvg =
        ([Item.table (preview dsNoAvg 10)],
         some (DashErr.columnNotFound "average_rating")) :=
  ⟨by decide, dashboard_missing_avg_aborts dsNoAvg (by decide)⟩

/-- A three-row table with the Dashboard's required columns present. -/
def dsDash : Dataset :=
  ⟨["title", "authors", "average_rating"],
   [[("title", Value.str "A"), ("authors", Value.str "X"), ("average_rating", Value.num 4)],
    [("title", Value.str "B"), ("authors", Value.str "X"), ("average_rating", Value.num 4)],
    [("title", Value.str "C"), ("authors", Value.str "Y"), ("average_rating", Value.num 4)]]⟩

/-- C9, counterexample: the spec's payload sentence lists five components
(including the distinct-author count), but the successful Dashboard emits
only four items — the distinct-author count is computed (line 77) and never
rendered (lines 82-85 render average, total books and bestsellers only). -/
theorem dashboard_payload_counterexample :
    (claimedDashboardItems dsDash).length = 5 ∧
      (dashboardView dsDash).1.length = 4 ∧ (dashboardView dsDash).2 = none := by
  refine ⟨rfl, rfl, rfl⟩

/-- C9, amended: on a table with average_rating and authors present and at
least one non-null rating, the Dashboard payload consists of exactly the
first-10 preview, the average metric, the row-count metric, and the
Bestsellers metric (the non-null ratings_count count when that column is
present, else the literal "N/A" — its absence never causes a failure); the
distinct-author count is computed, and can abort the view if authors is
missing, but is not part of the rendered payload. -/
theorem dashboard_payload_spec (d : Dataset)
    (h1 : "average_rating" ∈ d.schema) (h2 : "authors" ∈ d.schema)
    (h3 : nonNullNums d "average_rating" ≠ []) :
    dashboardView d =
      ([Item.table (preview d 10),
        Item.metric "⭐ Average Rating"
          (twoDecString ((nonNullNums d "average_rating").sum /
            ((nonNullNums d "average_rating").length : Rat))),
        Item.metric "📚 Total Books" (toString d.rows.length),
        Item.metric "🏆 Bestsellers"
          (if "ratings_count" ∈ d.schema then toString (nonNullCount d "ratings_count")
           else "N/A")], none) := by
  unfold dashboardView
  have ha := average_eq_mean d "average_rating" h1 h3
  rw [ha]
  have hd : distinctCount d "authors" =
      .ok ((d.rows.map (fun r => getCol r "authors")).dedup.length) := by
    unfold distinctCount
    rw [if_pos h2]
  rw [hd]

/-- C9, witness: the amended payload on the concrete three-row table. -/
theorem dashboard_payload_witness :
    ("average_rating" ∈ dsDash.schema) ∧ ("authors" ∈ dsDash.schema) ∧
      nonNullNums dsDash "average_rating" ≠ [] ∧
      dashboardView dsDash =
        ([Item.table (preview dsDash 10),
          Item.metric "⭐ Average Rating"
            (twoDecString ((nonNullNums dsDash "average_rating").sum /
              ((nonNullNums dsDash "average_rating").length : Rat))),
          Item.metric "📚 Total Books" (toString dsDash.rows.length),
          Item.metric "🏆 Bestsellers"
            (if "ratings_count" ∈ dsDash.schema then
              toString (nonNullCount dsDash "ratings_count")
             else "N/A")], none) :=
  ⟨by decide, by decide, by decide,
   dashboard_payload_spec dsDash (by decide) (by decide) (by decide)⟩

/-- C10: on a non-empty table whose average_rating column is present (and
authors present, so that the earlier analysis steps pass) but entirely
null, the computed average is null and the Dashboard aborts at the
two-decimal formatting of the average metric: only the preview is emitted
and the error is the formatting TypeError, not a degraded message. -/
theorem dashboard_allnull_format_failure (d : Dataset)
    (h1 : "average_rating" ∈ d.schema) (h2 : "authors" ∈ d.schema)
    (h3 : d.rows ≠ [])
    (h4 : ∀ r ∈ d.rows, numVal (getCol r "average_rating") = none) :
    dashboardView d = ([Item.table (preview d 10)], some DashErr.formatTypeError) := by
  unfold dashboardView
  have hnil : List.filterMap (fun r => numVal (getCol r "average_rating")) d.rows = [] := by
    rw [List.filterMap_eq_nil_iff]
    exact h4
  have ha : average d "average_rating" = .ok none := by
    unfold average
    rw [if_pos h1, foldl_avgStep, hnil]
    rfl
  rw [ha]
  have hd : distinctCount d "authors" =
      .ok ((d.rows.map (fun r => getCol r "authors")).dedup.length) := by
    unfold distinctCount
    rw [if_pos h2]
  rw [hd]

/-- A one-row table whose average_rating value is null. -/
def dsAllNull : Dataset :=
  ⟨["average_rating", "authors"],
   [[("average_rating", Value.null), ("authors", Value.str "X")]]⟩

/-- C10, witness: the formatting failure on the concrete all-null table. -/
theorem dashboard_allnull_witness :
    ("average_rating" ∈ dsAllNull.schema) ∧ ("authors" ∈ dsAllNull.schema) ∧
      dsAllNull.rows ≠ [] ∧
      (∀ r ∈ dsAllNull.rows, numVal (getCol r "average_rating") = none) ∧
      dashboardView dsAllNull =
        ([Item.table (preview dsAllNull 10)], some DashErr.formatTypeError) :=
  ⟨by decide, by decide, by decide, by decide,
   dashboard_allnull_format_failure dsAllNull (by decide) (by decide) (by decide)
     (by decide)⟩

/-- The Feedback view's payload: an acknowledgment or a validation warning. -/
inductive FeedbackPayload where
  | ack : String → FeedbackPayload
  | warn : String → FeedbackPayload
deriving DecidableEq, Repr

/-- The Feedback view (src/app.py lines 165-169): if both fields are
non-empty (Python truthiness of the strings), acknowledge; otherwise warn
with the fixed message "Please fill in all fields.".  Nothing is persisted
(the handler reads the two inputs and produces a payload only). -/
def feedbackView (name text : String) : FeedbackPayload :=
  if name ≠ "" ∧ text ≠ "" then FeedbackPayload.ack "Thank you for your feedback! 💚"
  else FeedbackPayload.warn "Please fill in all fields."

/-- C8, counterexample: with name empty and text "hello" the view warns
with the fixed message "Please fill in all fields.", which does not
mention the missing "name" field (the string "name" does not occur in it),
so the warning does not name the missing field as claimed. -/
theorem feedback_warning_counterexample :
    feedbackView "" "hello" = FeedbackPayload.warn "Please fill in all fields." ∧
      ¬ ("name".data <:+: "Please fill in all fields.".data) := by
  constructor
  · rfl
  · decide

/-- C8, amended: if both name and text are non-empty the payload is the
acknowledgment; otherwise it is the one generic validation warning
"Please fill in all fields.", which does not name the individual missing
fields; no acknowledgment is shown in that case, and no input is persisted
in either case. -/
theorem feedback_validation (name text : String) :
    (name ≠ "" → text ≠ "" →
      feedbackView name text = FeedbackPayload.ack "Thank you for your feedback! 💚") ∧
    ((name = "" ∨ text = "") →
      feedbackView name text = FeedbackPayload.warn "Please fill in all fields.") := by
  constructor
  · intro h1 h2
    unfold feedbackView
    rw [if_pos ⟨h1, h2⟩]
  · intro h
    unfold feedbackView
    rw [if_neg]
    rcases h with h | h
    · exact fun hc => hc.1 h
    · exact fun hc => hc.2 h

/-- C8, witness: both branches of the validation at concrete inputs. -/
theorem feedback_validation_witness :
    feedbackView "Ada" "nice" = FeedbackPayload.ack "Thank you for your feedback! 💚" ∧
      feedbackView "" "hello" = FeedbackPayload.warn "Please fill in all fields." :=
  ⟨(feedback_validation "Ada" "nice").1 (by decide) (by decide),
   (feedback_validation "" "hello").2 (Or.inl rfl)⟩

/-- Splitting a character list on a separator; n separators yield n+1
fields (the result is always non-empty). -/
def splitListOn (sep : Char) : List Char → List (List Char)
  | [] => [[]]
  | c :: cs =>
    match splitListOn sep cs with
    | [] => [[c]]
    | g :: gs => if c = sep then [] :: g :: gs else (c :: g) :: gs

def isDigitCh (c : Char) : Bool :=
  decide ('0' ≤ c) && decide (c ≤ '9')

def digitsVal (cs : List Char) : Nat :=
  cs.foldl (fun n c => 10 * n + (c.toNat - '0'.toNat)) 0

def parseDigits (cs : List Char) : Option Nat :=
  if cs ≠ [] ∧ cs.all isDigitCh = true then some (digitsVal cs) else none

/-- Unsigned decimal numeral: digits with an optional single decimal point. -/
def parseUnsigned (cs : List Char) : Option Rat :=
  match splitListOn '.' cs with
  | [a] => (parseDigits a).map (fun n => (n : Rat))
  | [a, b] =>
    match parseDigits a, parseDigits b with
    | some n, some f => some ((n : Rat) + (f : Rat) / ((10 : Rat) ^ b.length))
    | _, _ => none
  | _ => none

/-- Decimal numeral with an optional leading minus sign, the numeric shape
both engines' inference recognises in this model. -/
def parseNum (cs : List Char) : Option Rat :=
  match cs with
  | '-' :: rest => (parseUnsigned rest).map (fun q => -q)
  | _ => parseUnsigned cs

/-- Default missing-value tokens of the primary loader (the documented
default na_values of pandas read_csv). -/
def pandasNaTokens : List (List Char) :=
  ["", "#N/A", "#N/A N/A", "#NA", "-1.#IND", "-1.#QNAN", "-NaN", "-nan",
   "1.#IND", "1.#QNAN", "<NA>", "N/A", "NA", "NULL", "NaN", "None",
   "n/a", "nan", "null"].map String.data

/-- Cell rule of the primary DataSource path, `pd.read_csv`
(src/app.py line 25), at cell granularity: any default NA token reads as
missing (null); numeric-looking cells read as numbers; other cells as
strings.  (Column-level dtype unification of the real engine is not
modelled; no theorem below depends on it.) -/
def pandasCell (cs : List Char) : Value :=
  if cs ∈ pandasNaTokens then Value.null
  else
    match parseNum cs with
    | some q => Value.num q
    | none => Value.str (String.mk cs)

/-- Header-row CSV parsing of the primary path (simplified: comma-separated
fields, newline-separated records, no quoting; blank records skipped): the
header names the columns, and each following record becomes a row by
zipping the column names with its parsed cells. -/
def parseCsvWith (cell : List Char → Value) (text : String) : Dataset :=
  match (splitListOn '\n' text.data).filter (fun l => !l.isEmpty) with
  | [] => ⟨[], []⟩
  | header :: recs =>
    let cols := (splitListOn ',' header).map String.mk
    ⟨cols, recs.map (fun line => cols.zip ((splitListOn ',' line).map cell))⟩

/-- CSV parsing of the primary DataSource path (`pd.read_csv`, line 25). -/
def loadCsvPandas (text : String) : Dataset :=
  parseCsvWith pandasCell text

/-- The Upload view's payload: nothing (no file chosen), a preview of a
parsed secondary table, or the reader's TypeError. -/
inductive UploadPayload where
  | nothingUploaded : UploadPayload
  | preview10 : List Row → UploadPayload
  | typeError : String → UploadPayload
deriving DecidableEq, Repr

/-- The Upload view (src/app.py lines 150-155): with no file chosen it
renders nothing; with an uploaded file it passes the file-like upload
object itself — not a path string — to `spark.read.csv` (line 152), whose
argument validation accepts only a string path, a list or an RDD and
raises TypeError("path can be only string, list or RDD") before reading
any byte.  No secondary Dataset is parsed, no preview is rendered, and
the primary Dataset, a separate value the view never writes, is
untouched. -/
def uploadView (uploaded : Option String) : UploadPayload :=
  match uploaded with
  | none => UploadPayload.nothingUploaded
  | some _ => UploadPayload.typeError "path can be only string, list or RDD"

/-- C7, counterexample: at the concrete upload "c" newline "NA" the
claimed payload — the preview of the bytes parsed by the DataSource's
rule — is not produced: the Upload view fails with the reader's TypeError
before any parsing. -/
theorem upload_parse_counterexample :
    uploadView (some "c\nNA") ≠
        UploadPayload.preview10 (preview (loadCsvPandas "c\nNA") 10) ∧
      uploadView (some "c\nNA") =
        UploadPayload.typeError "path can be only string, list or RDD" :=
  ⟨by decide, rfl⟩

/-- C7, amended: the Upload view never parses an uploaded byte stream at
all — for every upload it fails with the reader's TypeError, because the
file-like upload object is not a string path, list or RDD — so no preview
of any secondary table is ever produced; the primary Dataset is untouched
(the view computes no new Dataset value). -/
theorem upload_never_parses (b : String) :
    uploadView (some b) =
        UploadPayload.typeError "path can be only string, list or RDD" ∧
      ∀ rows : List Row, uploadView (some b) ≠ UploadPayload.preview10 rows := by
  constructor
  · rfl
  · intro rows h
    simp [uploadView] at h

end BookstoreInsights
